import Mathlib

/-!
Verification of the objective-computation layer of a structured-prediction
trainer (the per-example command dispatcher in `ComputationEngine.ipp`, the
caching wrapper declared in `ComputationWrapper.hpp`, and the inner
optimization wrapper in `InnerOptimizationWrapperEM.hpp`).

The structural-inference engine is an external collaborator (a dynamic-
programming black box); it is modelled as an `Oracle`: a record of functions
from the engine configuration (which example is loaded, which parameter
values are loaded, whether hard constraints are installed, whether the
evidence structures have been refreshed) to the quantities the dispatcher
reads back (Viterbi score, log-partition value, feature-count expectations,
Gamma sufficient statistics, ...).  Real arithmetic is modelled over `ℚ`;
transcendental functions (`log`, `exp`, `lgamma`, digamma) are likewise
abstract parameters (`TransFns`) since no claim depends on their values.
Fatal paths (assertion failures, `Error(...)` calls, the dump-and-exit path
for negative objective values) are modelled with `Except`; warnings printed
to `stderr` are collected in a log list.
-/

/-- Modelled from the spec: the process-wide very negative sentinel score
meaning "no valid structure".  Its definition (`NEG_INF`) lives in utility
code outside `src/`; the exact magnitude is immaterial to every claim,
which only compare engine scores against `NEG_INF/2`. -/
def NEG_INF : ℚ := -(2 * 10 ^ 20)

/-- Modelled from the spec: the nucleotide alphabet size used by the
structured-evidence command's per-cell loop (`M` is a configuration
constant defined outside `src/`). -/
def M : Nat := 4

/-- Modelled from the spec: `NONCONVEX_MULTIPLIER` is a configuration
constant defined outside `src/`; the spec does not cover nonconvex
training, and every `NONCONVEX_MULTIPLIER != 0` block in the dispatcher
is dead in the covered configuration (in the EM commands those blocks
start with a fatal `Error(...)`). -/
def NONCONVEX_MULTIPLIER : ℚ := 0

/-- Modelled from the spec: `GetBaseName` lives in utility code outside
`src/`; per the spec the diagnostic dump file is "named from the example's
base name", i.e. the input filename stripped of its directory part. -/
def GetBaseName (s : String) : String :=
  String.mk (s.data.foldl (fun acc c => if c = '/' then [] else acc ++ [c]) [])

/-- A training example as the dispatcher sees it: whether a ground-truth
structural mapping is present (`HasStruct`) and, per data source, whether
continuous evidence observations are present (`HasEvidence`).  The mapping
contents themselves are only ever handed to the black-box engine. -/
structure SStruct where
  hasStruct : Bool
  hasEvidence : Nat → Bool

instance : Inhabited SStruct := ⟨⟨false, fun _ => false⟩⟩

/-- One entry of the `descriptions` vector: the example, its input filename
and its nonnegative weight. -/
structure FileDescription where
  sstruct : SStruct
  input_filename : String
  weight : ℚ

instance : Inhabited FileDescription := ⟨⟨default, "", 0⟩⟩

/-- The shared (broadcast) part of a command request (`SharedInfo`).
`w` models the `w` array of `GetNumLogicalParameters()` entries; `v` the
finite-difference perturbation vector. -/
structure SharedInfo where
  w : List ℚ
  v : List ℚ
  log_base : ℚ
  gamma : ℚ
  use_nonsmooth : Bool
  use_loss : Bool
  which_data : Nat
  id_base : Nat
  id_pairing : Nat
  areZeros : Bool
  evidence_data_scale : ℚ
  hyperparam_data : ℚ

/-- The mutable state of the inference engine that a dispatcher command
establishes before reading results back: which example was loaded
(`LoadSequence`), which parameter values were loaded (`LoadValues`),
whether hard structural constraints were installed (`UseConstraints`), and
whether `UpdateEvidenceStructures` was called after the last load. -/
structure EngineConfig where
  exampleIdx : Nat
  values : List ℚ
  constrained : Bool
  evidenceUpdated : Bool

/-- The black-box inference engine, as the functions the dispatcher reads
from it in a given configuration.  `getLogScoreEvidence` models
`GetLogScoreEvidence(which, i, j, which_data)`, a parameter-index lookup. -/
structure Oracle where
  viterbiScore : EngineConfig → ℚ
  viterbiCounts : EngineConfig → List ℚ
  logPartition : EngineConfig → ℚ
  featureCounts : EngineConfig → List ℚ
  logPartitionESS : EngineConfig → ℚ
  featureCountsESS : EngineConfig → List ℚ
  gammaMLESS : EngineConfig → List Int → Bool → Bool → Nat → ℚ × ℚ × ℚ
  gammaMLEESS : EngineConfig → List Int → Bool → Bool → Nat → ℚ × ℚ × ℚ
  numExamplesSeq : EngineConfig → List Int → Bool → Nat → ℚ
  numExamplesSeqPairing : EngineConfig → List Int → Bool → Nat → ℚ
  gammaMLESum : EngineConfig → List Int → Bool → Bool → Nat → ℚ
  getLogScoreEvidence : Nat → Nat → Nat → Nat → Nat

/-- The parameter manager's index translation (`GetLogicalIndex`) and the
number of logical parameters. -/
structure ParameterManager where
  getLogicalIndex : Nat → Nat
  numLogicalParameters : Nat

/-- The subset of the `Options` table the modelled commands read. -/
structure Options where
  viterbi_parsing : Bool
  num_data_sources : Nat

/-- Abstract transcendental functions (`log`, `exp`, `lgamma`, digamma
`Psi`); no claim depends on their analytic values. -/
structure TransFns where
  log : ℚ → ℚ
  exp : ℚ → ℚ
  lgamma : ℚ → ℚ
  psi : ℚ → ℚ

/-- Fatal termination paths of a dispatcher command. -/
inductive CEError where
  | assertFail (msg : String)
  | fatalError (msg : String)
  | negDump (filename : String) (w : List ℚ)
  deriving DecidableEq, Repr

instance {ε α : Type} [DecidableEq ε] [DecidableEq α] : DecidableEq (Except ε α) := fun a b =>
  match a, b with
  | .error e₁, .error e₂ =>
      if h : e₁ = e₂ then isTrue (congrArg Except.error h)
      else isFalse (fun hh => h (Except.error.inj hh))
  | .error _, .ok _ => isFalse (fun hh => Except.noConfusion hh)
  | .ok _, .error _ => isFalse (fun hh => Except.noConfusion hh)
  | .ok a₁, .ok a₂ =>
      if h : a₁ = a₂ then isTrue (congrArg Except.ok h)
      else isFalse (fun hh => h (Except.ok.inj hh))

/-- A dispatcher command's outcome: fatal error, or a result vector plus
the warnings written to `stderr` along the way. -/
abbrev CEResult := Except CEError (List ℚ × List String)

/-- Elementwise difference of two result vectors (`operator-`). -/
def vecSub (a b : List ℚ) : List ℚ := List.zipWith (fun x y => x - y) a b

/-- Scale every entry of a vector (`operator*` with a scalar on the right,
as in `w * shared.log_base` and `result *= weight`). -/
def vecScale (a : List ℚ) (c : ℚ) : List ℚ := a.map (fun x => x * c)

/-- `DotProduct` from the utility library. -/
def DotProduct (a b : List ℚ) : ℚ := (List.zipWith (fun x y => x * y) a b).sum

/-- Truncation toward zero, modelling a C `(int)` cast of a real value. -/
def truncToInt (x : ℚ) : Int := if 0 ≤ x then ⌊x⌋ else ⌈x⌉

namespace ComputationEngine

/-- The common tail of `ComputeFunctionAndGradient` and
`ComputeMStepFunctionAndGradient` (the "avoid precision problems" block
followed by the weight/log-base rescaling): if the final objective value
(the last entry of `result`) is negative, then below `-1e-6` the process
writes the parameter vector to `neg_params.<basename>` and exits, while
within `[-1e-6, 0)` the whole result vector is zeroed and returned
silently; otherwise the result is scaled by the example weight and its
last entry descaled by `log_base`. -/
def finalizeResult (result : List ℚ) (input_filename : String) (w : List ℚ)
    (weight log_base : ℚ) : CEResult :=
  let back := result.getLastD 0
  if back < 0 then
    if back < -(1 / 1000000) then
      Except.error (CEError.negDump ("neg_params." ++ GetBaseName input_filename) w)
    else
      Except.ok (result.map (fun _ => (0 : ℚ)), [])
  else
    let r := vecScale result weight
    Except.ok (r.dropLast ++ [r.getLastD 0 / log_base], [])

/-- `ComputationEngine::ComputeFunctionAndGradient` (lines 754-912).
`HAMMING_LOSS` is taken undefined (the covered build configuration), and
the `NONCONVEX_MULTIPLIER != 0` block is skipped since the multiplier is
zero. -/
def ComputeFunctionAndGradient (o : Oracle) (descs : List FileDescription)
    (sh : SharedInfo) (idx : Nat) (need_gradient : Bool) : CEResult :=
  let fd := descs.getD idx default
  let vals := vecScale sh.w sh.log_base
  let cfgU : EngineConfig := ⟨idx, vals, false, false⟩
  let unconditional_score :=
    if sh.use_nonsmooth then o.viterbiScore cfgU else o.logPartition cfgU
  let unconditional_counts :=
    if need_gradient then
      (if sh.use_nonsmooth then o.viterbiCounts cfgU else o.featureCounts cfgU)
    else []
  let cfgC : EngineConfig := ⟨idx, vals, true, false⟩
  let conditional_score :=
    if sh.use_nonsmooth then o.viterbiScore cfgC else o.logPartition cfgC
  let conditional_counts :=
    if need_gradient then
      (if sh.use_nonsmooth then o.viterbiCounts cfgC else o.featureCounts cfgC)
    else []
  if unconditional_score < conditional_score then
    Except.error (CEError.assertFail "Conditional score cannot exceed unconditional score.")
  else
    let result := (if need_gradient then vecSub unconditional_counts conditional_counts
                   else []) ++ [unconditional_score - conditional_score]
    if conditional_score < NEG_INF / 2 then
      Except.ok (result.map (fun _ => (0 : ℚ)),
                 ["Unexpected bad parse for file: " ++ fd.input_filename])
    else
      finalizeResult result fd.input_filename sh.w fd.weight sh.log_base

/-- `ComputationEngine::ComputeMStepFunctionAndGradient` (lines 269-452).
With `use_nonsmooth` the command dies in `Error("Viterbi training not
supported within EM training")` before any inference; in the smooth case
the conditional pass clamps to the ground truth when it is known and
otherwise takes the expected-sufficient-statistics pass with
`conditional_score = DotProduct(w, conditional_counts)`. -/
def ComputeMStepFunctionAndGradient (o : Oracle) (descs : List FileDescription)
    (sh : SharedInfo) (idx : Nat) (need_gradient : Bool) : CEResult :=
  let fd := descs.getD idx default
  let sstruct := fd.sstruct
  let vals := vecScale sh.w sh.log_base
  let cfgU : EngineConfig := ⟨idx, vals, false, true⟩
  if sh.use_nonsmooth then
    Except.error (CEError.fatalError "Viterbi training not supported within EM training")
  else
    let unconditional_score := o.logPartition cfgU
    let unconditional_counts := if need_gradient then o.featureCounts cfgU else []
    let cfgC : EngineConfig := ⟨idx, vals, true, true⟩
    let conditional_counts :=
      if !sstruct.hasStruct then o.featureCountsESS cfgU
      else if need_gradient then o.featureCounts cfgC else []
    let conditional_score :=
      if !sstruct.hasStruct then DotProduct sh.w conditional_counts
      else o.logPartition cfgC
    if unconditional_score < conditional_score then
      Except.error (CEError.assertFail "Conditional score cannot exceed unconditional score.")
    else
      let result := (if need_gradient then vecSub unconditional_counts conditional_counts
                     else []) ++ [unconditional_score - conditional_score]
      if conditional_score < NEG_INF / 2 then
        Except.ok (result.map (fun _ => (0 : ℚ)),
                   ["Unexpected bad parse for file: " ++ fd.input_filename])
      else
        finalizeResult result fd.input_filename sh.w fd.weight sh.log_base

/-- `ComputationEngine::CheckParsability` (lines 106-127): constrained
Viterbi at the all-zero parameter vector; the result vector is sized to
the whole corpus (default-initialized to zero) with the parsability
indicator at the requesting example's position. -/
def CheckParsability (o : Oracle) (pm : ParameterManager)
    (descs : List FileDescription) (idx : Nat) : List ℚ :=
  let cfg : EngineConfig := ⟨idx, List.replicate pm.numLogicalParameters 0, true, true⟩
  let conditional_score := o.viterbiScore cfg
  (List.replicate descs.length (0 : ℚ)).set idx
    (if conditional_score < NEG_INF / 2 then 0 else 1)

/-- One iteration of the per-(data-source, nucleotide, pairing-state) cell
loop of `ComputeFunctionAndGradientSE` (lines 1021-1071), threading the
accumulated `function_value` and the result vector. -/
def seEvidenceCell (o : Oracle) (pm : ParameterManager) (fns : TransFns)
    (sstruct : SStruct) (w : List ℚ) (cfg : EngineConfig) (need_gradient : Bool)
    (cell : Nat × Nat × Nat) (acc : ℚ × List ℚ) : ℚ × List ℚ :=
  let dataset_id := cell.1
  let i := cell.2.1
  let j := cell.2.2
  let evidence_cpd_id : List Int := [(i : Int), (j : Int)]
  let stats : ℚ × ℚ × ℚ :=
    if sstruct.hasEvidence dataset_id then
      (if sstruct.hasStruct then o.gammaMLESS cfg evidence_cpd_id true true dataset_id
       else if need_gradient then o.gammaMLEESS cfg evidence_cpd_id true true dataset_id
       else (0, 0, 0))
    else (0, 0, 0)
  let sum_d := stats.1
  let sum_log_d := stats.2.1
  let N := stats.2.2
  let index_k := pm.getLogicalIndex (o.getLogScoreEvidence 0 i j dataset_id)
  let index_theta := pm.getLogicalIndex (o.getLogScoreEvidence 1 i j dataset_id)
  let k := fns.exp (w.getD index_k 0)
  let log_theta := w.getD index_theta 0
  let theta_inv := fns.exp (-log_theta)
  let fv :=
    if sstruct.hasStruct then
      acc.1 - ((k - 1) * sum_log_d - sum_d * theta_inv - N * k * log_theta
               - N * fns.lgamma k)
    else acc.1
  let res :=
    if need_gradient then
      (acc.2.set index_k (-(sum_log_d - N * log_theta - N * fns.psi k) * k)).set
        index_theta (-(sum_d * theta_inv - N * k))
    else acc.2
  (fv, res)

/-- The iteration space of the structured-evidence cell loop, in source
order: data source outermost, then nucleotide (`i < M`), then pairing
state (`j < 2`). -/
def seCells (num_data_sources : Nat) : List (Nat × Nat × Nat) :=
  (List.range num_data_sources).flatMap fun d =>
    (List.range M).flatMap fun i =>
      (List.range 2).map fun j => (d, i, j)

/-- The whole structured-evidence cell loop folded over `seCells`. -/
def seEvidenceLoop (o : Oracle) (pm : ParameterManager) (fns : TransFns)
    (sstruct : SStruct) (w : List ℚ) (cfg : EngineConfig) (need_gradient : Bool)
    (num_data_sources : Nat) (init : ℚ × List ℚ) : ℚ × List ℚ :=
  (seCells num_data_sources).foldl
    (fun acc cell => seEvidenceCell o pm fns sstruct w cfg need_gradient cell acc) init

/-- `ComputationEngine::ComputeFunctionAndGradientSE` (lines 923-1177).
The conditional pass clamps to the ground truth when it is known,
otherwise it is the ESS log-partition pass; the per-cell Gamma evidence
log-likelihood only contributes to the function value for known-structure
examples; the assertion and the dump-and-exit path are likewise guarded by
`HasStruct`, and data-only examples are rescaled by `hyperparam_data`. -/
def ComputeFunctionAndGradientSE (o : Oracle) (pm : ParameterManager)
    (fns : TransFns) (opts : Options) (descs : List FileDescription)
    (sh : SharedInfo) (idx : Nat) (need_gradient : Bool) : CEResult :=
  let fd := descs.getD idx default
  let sstruct := fd.sstruct
  let vals := vecScale sh.w sh.log_base
  let cfgU : EngineConfig := ⟨idx, vals, false, true⟩
  if sh.use_nonsmooth then
    Except.error (CEError.fatalError "Viterbi training not supported within EM training")
  else
    let unconditional_score := o.logPartition cfgU
    let unconditional_counts := if need_gradient then o.featureCounts cfgU else []
    let cfgC : EngineConfig := ⟨idx, vals, true, true⟩
    let conditional_score :=
      if !sstruct.hasStruct then o.logPartitionESS cfgU else o.logPartition cfgC
    let conditional_counts :=
      if !sstruct.hasStruct then
        (if need_gradient then o.featureCountsESS cfgU else [])
      else
        (if need_gradient then o.featureCounts cfgC else [])
    let result0 := if need_gradient then vecSub unconditional_counts conditional_counts
                   else []
    let cfgLoop := if sstruct.hasStruct then cfgC else cfgU
    let loop := seEvidenceLoop o pm fns sstruct sh.w cfgLoop need_gradient
                  opts.num_data_sources (0, result0)
    let function_value_nonevidence := unconditional_score - conditional_score
    let function_value := loop.1 + function_value_nonevidence
    if sstruct.hasStruct ∧ unconditional_score < conditional_score then
      Except.error (CEError.assertFail "Conditional score cannot exceed unconditional score.")
    else
      let result := loop.2 ++ [function_value]
      if conditional_score < NEG_INF / 2 then
        Except.ok (result.map (fun _ => (0 : ℚ)),
                   ["Unexpected bad parse for file: " ++ fd.input_filename])
      else if function_value_nonevidence < 0 then
        if function_value_nonevidence < -(1 / 1000000) ∧ sstruct.hasStruct then
          Except.error (CEError.negDump ("neg_params." ++ GetBaseName fd.input_filename) sh.w)
        else
          Except.ok (result.map (fun _ => (0 : ℚ)), [])
      else
        let r := vecScale result fd.weight
        let r := r.dropLast ++ [r.getLastD 0 / sh.log_base]
        Except.ok ((if !sstruct.hasStruct then vecScale r sh.hyperparam_data else r), [])

/-- `ComputationEngine::ComputeHessianVectorProduct` (lines 1186-1212):
disallowed under Viterbi parsing, otherwise the central finite difference
of the `ComputeFunctionAndGradient` result at `w ± EPSILON * v` with
`EPSILON = 1e-8`. -/
def ComputeHessianVectorProduct (o : Oracle) (opts : Options)
    (descs : List FileDescription) (sh : SharedInfo) (idx : Nat) : CEResult :=
  if opts.viterbi_parsing then
    Except.error (CEError.fatalError "Should not use Hessian-vector products with Viterbi parsing.")
  else
    let EPSILON : ℚ := 1 / 100000000
    let wPlus := List.zipWith (fun wi vi => wi + EPSILON * vi) sh.w sh.v
    let wMinus := List.zipWith (fun wi vi => wi - EPSILON * vi) sh.w sh.v
    do
      let r1 ← ComputeFunctionAndGradient o descs { sh with w := wPlus } idx true
      let r2 ← ComputeFunctionAndGradient o descs { sh with w := wMinus } idx true
      pure (List.zipWith (fun a b => (a - b) / (2 * EPSILON)) r1.1 r2.1, r1.2 ++ r2.2)

/-- The engine operations a Gamma-MLE command invokes, recorded in call
order so that "no inference pass was run" is expressible. -/
inductive EngineCall where
  | loadSequence
  | useConstraints
  | loadValues
  | updateEvidenceStructures
  | getLogScoreEvidence
  | computeInsideESS
  | computeOutsideESS
  | computePosteriorESS
  | computeGammaMLEESS
  | getNumExamplesSeq
  | computeGammaMLESS
  | getNumExamplesSeqPairing
  | computeGammaMLESum
  deriving DecidableEq, Repr

/-- `ComputationEngine::ComputeGammaMLEFunctionAndGradient` (lines
463-636): per-(base, pairing, data-source) Gamma sufficient statistics
with the scale rebasing (`sssum / scale`; `sssumlog` minus `log scale`
times the returned example count in the known-structure branch and times
the third ESS statistic in the unknown-structure branch), plus the Gamma
log-likelihood (recomputed from zero-excluded statistics in the
`areZeros` branch).  Examples without evidence for the requested data
source return all-zero statistics without touching the engine. -/
def ComputeGammaMLEFunctionAndGradient (o : Oracle) (pm : ParameterManager)
    (fns : TransFns) (descs : List FileDescription) (sh : SharedInfo) (idx : Nat)
    (need_gradient : Bool) : Except CEError (List ℚ) × List EngineCall :=
  let fd := descs.getD idx default
  let sstruct := fd.sstruct
  let which_data := sh.which_data
  if !sstruct.hasEvidence which_data then
    (Except.ok ((if need_gradient then [0, 0, 0] else []) ++ [0]), [])
  else
    let vals := vecScale sh.w sh.log_base
    let cfg : EngineConfig := ⟨idx, vals, true, true⟩
    let loadTrace := [EngineCall.loadSequence, EngineCall.useConstraints,
      EngineCall.loadValues, EngineCall.updateEvidenceStructures,
      EngineCall.getLogScoreEvidence, EngineCall.getLogScoreEvidence]
    let j := sh.id_base
    let k := sh.id_pairing
    let areZeros := sh.areZeros
    let scale := sh.evidence_data_scale
    let evidence_cpd_id : List Int := [(j : Int), (k : Int), if areZeros then 1 else 0]
    let current_k :=
      fns.exp (sh.w.getD (pm.getLogicalIndex (o.getLogScoreEvidence 0 j k which_data)) 0)
    let current_theta :=
      fns.exp (sh.w.getD (pm.getLogicalIndex (o.getLogScoreEvidence 1 j k which_data)) 0)
    if sh.use_nonsmooth then
      (Except.error (CEError.fatalError "Viterbi training not supported within EM training"),
       loadTrace)
    else if !sstruct.hasStruct then
      let stats := o.gammaMLEESS cfg evidence_cpd_id (!areZeros) (!areZeros) which_data
      let update_gammamle_num_examples := o.numExamplesSeq cfg evidence_cpd_id false which_data
      let update_gammamle_sssum := stats.1
      let update_gammamle_ssq := stats.2.2
      let update_gammamle_sssumlog := stats.2.1
      let ll :=
        if !areZeros then
          (current_k - 1) * update_gammamle_sssumlog
            - update_gammamle_sssum / current_theta
            - update_gammamle_num_examples * current_k * fns.log current_theta
            - update_gammamle_num_examples * fns.lgamma current_k
        else
          let stats2 := o.gammaMLEESS cfg evidence_cpd_id true true which_data
          let sssumlog_nozeros := stats2.2.1
          let num_nozeros : ℚ :=
            (truncToInt (o.numExamplesSeq cfg evidence_cpd_id true which_data) : ℚ)
          (current_k - 1) * sssumlog_nozeros
            - update_gammamle_sssum / current_theta
            - num_nozeros * current_k * fns.log current_theta
            - num_nozeros * fns.lgamma current_k
      let sssum := update_gammamle_sssum / scale
      let sssumlog := update_gammamle_sssumlog - update_gammamle_ssq * fns.log scale
      let result := (if need_gradient then [sssum, sssumlog, update_gammamle_num_examples]
                     else []) ++ [ll]
      (Except.ok (vecScale result fd.weight),
       loadTrace ++ [EngineCall.computeInsideESS, EngineCall.computeOutsideESS,
         EngineCall.computePosteriorESS, EngineCall.computeGammaMLEESS,
         EngineCall.getNumExamplesSeq] ++
       (if !areZeros then [] else [EngineCall.computeGammaMLEESS, EngineCall.getNumExamplesSeq]))
    else
      let stats := o.gammaMLESS cfg evidence_cpd_id (!areZeros) (!areZeros) which_data
      let update_gammamle_num_examples :=
        o.numExamplesSeqPairing cfg evidence_cpd_id false which_data
      let update_gammamle_sssum := stats.1
      let update_gammamle_sssumlog := stats.2.1
      let ll :=
        if !areZeros then
          (current_k - 1) * update_gammamle_sssumlog
            - update_gammamle_sssum / current_theta
            - update_gammamle_num_examples * current_k * fns.log current_theta
            - update_gammamle_num_examples * fns.lgamma current_k
        else
          let stats2 := o.gammaMLESS cfg evidence_cpd_id true true which_data
          let sssumlog_nozeros := stats2.2.1
          let num_nozeros : ℚ :=
            (truncToInt (o.numExamplesSeqPairing cfg evidence_cpd_id true which_data) : ℚ)
          (current_k - 1) * sssumlog_nozeros
            - update_gammamle_sssum / current_theta
            - num_nozeros * current_k * fns.log current_theta
            - num_nozeros * fns.lgamma current_k
      let sssum := update_gammamle_sssum / scale
      let sssumlog := update_gammamle_sssumlog - update_gammamle_num_examples * fns.log scale
      let result := (if need_gradient then [sssum, sssumlog, update_gammamle_num_examples]
                     else []) ++ [ll]
      (Except.ok (vecScale result fd.weight),
       loadTrace ++ [EngineCall.computeGammaMLESS, EngineCall.getNumExamplesSeqPairing] ++
       (if !areZeros then []
        else [EngineCall.computeGammaMLESS, EngineCall.getNumExamplesSeqPairing]))

/-- `ComputationEngine::ComputeGammaMLEScalingFactor` (lines 647-705):
`(Σd, N)` for the requested cell, posterior-weighted (ESS) when the
structure is unknown, exact otherwise; examples without evidence for the
requested data source return `(0, 0)` without touching the engine. -/
def ComputeGammaMLEScalingFactor (o : Oracle) (descs : List FileDescription)
    (sh : SharedInfo) (idx : Nat) : Except CEError (List ℚ) × List EngineCall :=
  let fd := descs.getD idx default
  let sstruct := fd.sstruct
  let which_data := sh.which_data
  if !sstruct.hasEvidence which_data then
    (Except.ok [0, 0], [])
  else
    let vals := vecScale sh.w sh.log_base
    let cfg : EngineConfig := ⟨idx, vals, true, true⟩
    let loadTrace := [EngineCall.loadSequence, EngineCall.useConstraints,
      EngineCall.loadValues, EngineCall.updateEvidenceStructures]
    let evidence_cpd_id : List Int := [(sh.id_base : Int), (sh.id_pairing : Int)]
    if !sstruct.hasStruct then
      let update_gammamle_sssum := o.gammaMLESum cfg evidence_cpd_id true true which_data
      let update_gammamle_num_examples := o.numExamplesSeq cfg evidence_cpd_id false which_data
      (Except.ok [update_gammamle_sssum, update_gammamle_num_examples],
       loadTrace ++ [EngineCall.computeInsideESS, EngineCall.computeOutsideESS,
         EngineCall.computePosteriorESS, EngineCall.computeGammaMLESum,
         EngineCall.getNumExamplesSeq])
    else
      let update_gammamle_sssum := o.gammaMLESum cfg evidence_cpd_id false false which_data
      let update_gammamle_num_examples :=
        o.numExamplesSeqPairing cfg evidence_cpd_id false which_data
      (Except.ok [update_gammamle_sssum, update_gammamle_num_examples],
       loadTrace ++ [EngineCall.computeGammaMLESum, EngineCall.getNumExamplesSeqPairing])

end ComputationEngine

namespace InnerOptimizationWrapperEM

/-- `InnerOptimizationWrapperEM::Minimize` (line 45): intentionally
unimplemented — it calls `Error("Not implemented")` unconditionally. -/
def Minimize (_x0 : List ℚ) : Except CEError ℚ :=
  Except.error (CEError.fatalError "Not implemented")

end InnerOptimizationWrapperEM

/-- Modelled from the spec: the Caching Oracle's memoization key
(`ComputationWrapper.ipp` is not under `src/`; only the cache member
declarations of `ComputationWrapper.hpp` lines 29-39 are).  Per §3 / §4.2
a cache entry is keyed by `(unit set, parameter vector, toggle flags)`. -/
structure CacheKey where
  units : List Nat
  w : List ℚ
  use_nonsmooth : Bool
  use_loss : Bool
  deriving DecidableEq

/-- Modelled from the spec: the Caching Oracle's memoization slot for the
standard structural objective — the last key plus the function value and
gradient computed at it (both produced by one dispatcher pass). -/
structure CacheState where
  key : Option CacheKey
  cached_function : ℚ
  cached_gradient : List ℚ

/-- Modelled from the spec: the Function oracle.  `freshFunction` and
`freshGradient` stand for the batch-level fresh computation (fan-out of
the dispatcher over the unit set plus elementwise sum); a request matching
the current key reuses the stored value, otherwise one dispatcher pass
computes and stores both the function value and the gradient. -/
def cachedComputeFunction (freshFunction : CacheKey → ℚ)
    (freshGradient : CacheKey → List ℚ) (k : CacheKey) (s : CacheState) :
    ℚ × CacheState :=
  if s.key = some k then (s.cached_function, s)
  else (freshFunction k, ⟨some k, freshFunction k, freshGradient k⟩)

/-- Modelled from the spec: the Gradient oracle (same memoization slot). -/
def cachedComputeGradient (freshFunction : CacheKey → ℚ)
    (freshGradient : CacheKey → List ℚ) (k : CacheKey) (s : CacheState) :
    List ℚ × CacheState :=
  if s.key = some k then (s.cached_gradient, s)
  else (freshGradient k, ⟨some k, freshFunction k, freshGradient k⟩)

/-- The caching contract's state invariant: whatever is stored under the
current key is exactly what a fresh computation at that key produces. -/
def CacheCoherent (freshFunction : CacheKey → ℚ) (freshGradient : CacheKey → List ℚ)
    (s : CacheState) : Prop :=
  ∀ k, s.key = some k → s.cached_function = freshFunction k ∧
    s.cached_gradient = freshGradient k

/-- Whether a command outcome is the failed `Assert` (as opposed to a
successful result, an `Error(...)` call or the dump-and-exit path). -/
def isAssertFail {α : Type} : Except CEError α → Bool
  | Except.error (CEError.assertFail _) => true
  | _ => false

/-- The result vector of a successful command outcome. -/
def okValues {α : Type} : Except CEError (List ℚ × α) → Option (List ℚ)
  | Except.ok (v, _) => some v
  | _ => none

/-- The last entry (the function value) of a successful command outcome. -/
def okLast {α : Type} : Except CEError (List ℚ × α) → Option ℚ
  | Except.ok (v, _) => v.getLast?
  | _ => none

/-- A trivial engine instantiation used to evaluate the theorems at
concrete inputs. -/
def oracle0 : Oracle where
  viterbiScore := fun _ => 0
  viterbiCounts := fun _ => [0]
  logPartition := fun _ => 0
  featureCounts := fun _ => [0]
  logPartitionESS := fun _ => 0
  featureCountsESS := fun _ => [0]
  gammaMLESS := fun _ _ _ _ _ => (0, 0, 0)
  gammaMLEESS := fun _ _ _ _ _ => (0, 0, 0)
  numExamplesSeq := fun _ _ _ _ => 0
  numExamplesSeqPairing := fun _ _ _ _ => 0
  gammaMLESum := fun _ _ _ _ _ => 0
  getLogScoreEvidence := fun _ _ _ _ => 0

/-- Trivial transcendental functions for concrete evaluation. -/
def fns0 : TransFns := ⟨fun _ => 0, fun _ => 0, fun _ => 0, fun _ => 0⟩

/-- A one-parameter manager for concrete evaluation. -/
def pm0 : ParameterManager := ⟨fun i => i, 1⟩

/-- A shared-parameter block for concrete evaluation: one weight, smooth
objective, `log_base = 1`, unit scale and hyperparameter. -/
def sh0 : SharedInfo := ⟨[0], [1], 1, 0, false, false, 0, 0, 0, false, 1, 1⟩

/-- A one-example corpus without ground truth and without evidence. -/
def descs0 : List FileDescription := [⟨⟨false, fun _ => false⟩, "dir/ex0", 1⟩]

/-- A one-example corpus with ground truth (and no evidence). -/
def descs1 : List FileDescription := [⟨⟨true, fun _ => false⟩, "dir/ex1", 1⟩]

/-- A one-example corpus without ground truth but with evidence on every
data source. -/
def descsE : List FileDescription := [⟨⟨false, fun _ => true⟩, "ev0", 1⟩]

/-- An engine whose Gamma ESS statistics are `(10, 7, 5)` while the
per-sequence example count is `3` — the third ESS statistic and the
example count deliberately differ. -/
def oracleC3 : Oracle :=
  { oracle0 with
    gammaMLEESS := fun _ _ _ _ _ => (10, 7, 5)
    numExamplesSeq := fun _ _ _ _ => 3 }

/-- Transcendental functions that are constantly `1`, so that `log scale`
is nonzero and scale rebasing is observable. -/
def fnsC3 : TransFns := ⟨fun _ => 1, fun _ => 1, fun _ => 1, fun _ => 1⟩

/-- An engine whose unconstrained ESS log-partition value exceeds its
unconditional log-partition value. -/
def oracleC1 : Oracle := { oracle0 with logPartitionESS := fun _ => 1 }

/-- An engine that violates the conditional/unconditional contract: the
constrained log-partition value exceeds the unconstrained one. -/
def oracleAssert : Oracle :=
  { oracle0 with logPartition := fun cfg => if cfg.constrained then 1 else 0 }

/-- Options for concrete evaluation: smooth decoding, no data sources. -/
def opts0 : Options := ⟨false, 0⟩


/-! ## Claims -/

/-- C9: the EM-hybrid inner optimizer's `Minimize` operation fails fatally
for every input; it never performs a minimization. -/
theorem claim9_minimize_fails_fatally (x0 : List ℚ) :
    InnerOptimizationWrapperEM.Minimize x0 =
      Except.error (CEError.fatalError "Not implemented") := rfl

/-- C10: for an example without evidence for the requested data source the
Gamma-MLE function/gradient command returns zeros only (three zero
sufficient statistics plus a zero log-likelihood when the gradient is
requested, a single zero log-likelihood otherwise) and the scaling-factor
command returns `(0, 0)`, in both cases with an empty engine-call trace
(the example is never loaded and no inference pass runs). -/
theorem claim10_no_evidence_returns_zeros (o : Oracle) (pm : ParameterManager)
    (fns : TransFns) (descs : List FileDescription) (sh : SharedInfo) (idx : Nat)
    (need_gradient : Bool)
    (hev : (descs.getD idx default).sstruct.hasEvidence sh.which_data = false) :
    ComputationEngine.ComputeGammaMLEFunctionAndGradient o pm fns descs sh idx need_gradient =
      (Except.ok (if need_gradient then [0, 0, 0, 0] else [0]), []) ∧
    ComputationEngine.ComputeGammaMLEScalingFactor o descs sh idx =
      (Except.ok [0, 0], []) := by
  constructor
  · simp only [ComputationEngine.ComputeGammaMLEFunctionAndGradient, hev]
    cases need_gradient <;> simp
  · simp only [ComputationEngine.ComputeGammaMLEScalingFactor, hev]
    simp

/-- C10 witness: concrete evaluation on a no-evidence example. -/
theorem claim10_witness :
    ComputationEngine.ComputeGammaMLEFunctionAndGradient oracle0 pm0 fns0 descs0 sh0 0 true =
      (Except.ok [0, 0, 0, 0], []) ∧
    ComputationEngine.ComputeGammaMLEScalingFactor oracle0 descs0 sh0 0 =
      (Except.ok [0, 0], []) := by
  have h := claim10_no_evidence_returns_zeros oracle0 pm0 fns0 descs0 sh0 0 true rfl
  simpa using h

/-- C8: from any coherent cache state, the Function oracle followed by the
Gradient oracle at an unchanged key returns exactly the fresh computation's
function value and gradient (bit-for-bit), and the cache stays coherent —
the cache only elides redundant passes, never changes a returned value. -/
theorem claim8_cache_idempotent (freshF : CacheKey → ℚ) (freshG : CacheKey → List ℚ)
    (k : CacheKey) (s : CacheState) (hco : CacheCoherent freshF freshG s) :
    (cachedComputeFunction freshF freshG k s).1 = freshF k ∧
    (cachedComputeGradient freshF freshG k (cachedComputeFunction freshF freshG k s).2).1 =
      freshG k ∧
    CacheCoherent freshF freshG
      (cachedComputeGradient freshF freshG k (cachedComputeFunction freshF freshG k s).2).2 := by
  by_cases h : s.key = some k
  · have hc := hco k h
    refine ⟨?_, ?_, ?_⟩
    · simp [cachedComputeFunction, h, hc.1]
    · simp [cachedComputeFunction, cachedComputeGradient, h, hc.2]
    · simpa [cachedComputeFunction, cachedComputeGradient, h] using hco
  · refine ⟨?_, ?_, ?_⟩
    · simp [cachedComputeFunction, h]
    · simp [cachedComputeFunction, cachedComputeGradient, h]
    · simp only [cachedComputeFunction, cachedComputeGradient, h, if_neg, if_false]
      intro k' hk'
      simp_all [CacheCoherent]

/-- C8 witness: concrete cache run from the empty state. -/
theorem claim8_witness :
    (cachedComputeFunction (fun _ => (5 : ℚ)) (fun _ => [1, 2]) ⟨[0], [1], false, false⟩
        ⟨none, 0, []⟩).1 = 5 ∧
    (cachedComputeGradient (fun _ => (5 : ℚ)) (fun _ => [1, 2]) ⟨[0], [1], false, false⟩
        (cachedComputeFunction (fun _ => (5 : ℚ)) (fun _ => [1, 2]) ⟨[0], [1], false, false⟩
          ⟨none, 0, []⟩).2).1 = [1, 2] := by
  have h := claim8_cache_idempotent (fun _ => (5 : ℚ)) (fun _ => [1, 2])
    ⟨[0], [1], false, false⟩ ⟨none, 0, []⟩ (fun k hk => Option.noConfusion hk)
  exact ⟨h.1, h.2.1⟩

/-- C7: `CheckParsability` returns a vector sized to the full corpus whose
entry at the requesting example's position is `0` exactly when the
constrained Viterbi score at the all-zero weight vector falls below
`NEG_INF/2` (`1` otherwise), and whose every other position holds the
default-initialized value `0`. -/
theorem claim7_check_parsability (o : Oracle) (pm : ParameterManager)
    (descs : List FileDescription) (idx : Nat) (hidx : idx < descs.length) :
    (ComputationEngine.CheckParsability o pm descs idx).length = descs.length ∧
    ∀ i, i < descs.length →
      (ComputationEngine.CheckParsability o pm descs idx).getD i 0 =
        if i = idx then
          (if o.viterbiScore ⟨idx, List.replicate pm.numLogicalParameters 0, true, true⟩ <
              NEG_INF / 2 then 0 else 1)
        else 0 := by
  constructor
  · simp [ComputationEngine.CheckParsability]
  · intro i hi
    simp only [ComputationEngine.CheckParsability]
    rcases eq_or_ne i idx with rfl | hne
    · rw [List.getD_eq_getElem?_getD, List.getElem?_set_self (by simpa using hidx)]
      simp
    · rw [List.getD_eq_getElem?_getD, List.getElem?_set_ne (Ne.symm hne)]
      simp [List.getElem?_replicate, hi, hne]

/-- C7 witness: a two-example corpus where example 1 is unparsable (its
constrained Viterbi score at zero weights is the sentinel). -/
theorem claim7_witness :
    (ComputationEngine.CheckParsability
        { oracle0 with viterbiScore := fun _ => NEG_INF } pm0
        (descs0 ++ descs1) 1).length = 2 ∧
    (ComputationEngine.CheckParsability
        { oracle0 with viterbiScore := fun _ => NEG_INF } pm0
        (descs0 ++ descs1) 1).getD 0 0 = 0 ∧
    (ComputationEngine.CheckParsability
        { oracle0 with viterbiScore := fun _ => NEG_INF } pm0
        (descs0 ++ descs1) 1).getD 1 0 = 0 := by
  have h := claim7_check_parsability
    { oracle0 with viterbiScore := fun _ => NEG_INF } pm0 (descs0 ++ descs1) 1
    (by decide)
  refine ⟨by simpa using h.1, ?_, ?_⟩
  · have h0 := h.2 0 (by decide)
    simpa using h0
  · have h1 := h.2 1 (by decide)
    rw [h1]
    norm_num [NEG_INF]

/-- The last entry of a vector with a value pushed at the back. -/
theorem getLast?_append_single (l : List ℚ) (a : ℚ) : (l ++ [a]).getLast? = some a :=
  List.getLast?_concat l

/-- `getLastD` of a vector with a value pushed at the back. -/
theorem getLastD_append_single (l : List ℚ) (a : ℚ) : (l ++ [a]).getLastD 0 = a := by
  rw [List.getLastD_eq_getLast?, getLast?_append_single]; rfl

/-- Scaling distributes over pushing a value at the back. -/
theorem vecScale_append_single (l : List ℚ) (a c : ℚ) :
    vecScale (l ++ [a]) c = vecScale l c ++ [a * c] := by
  simp [vecScale]

/-- On a nonnegative final value, the finalization tail succeeds and its
function-value entry is the final value scaled by the example weight and
descaled by `log_base`. -/
theorem okLast_finalizeResult (l : List ℚ) (a : ℚ) (filename : String) (w : List ℚ)
    (weight log_base : ℚ) (ha : 0 ≤ a) :
    okLast (ComputationEngine.finalizeResult (l ++ [a]) filename w weight log_base) =
      some (a * weight / log_base) := by
  rw [ComputationEngine.finalizeResult]
  simp only [getLastD_append_single, not_lt.mpr ha, if_false]
  simp only [okLast, vecScale_append_single, getLastD_append_single]
  rw [getLast?_append_single]

/-- The finalization tail never reports an assertion failure. -/
theorem isAssertFail_finalizeResult (res : List ℚ) (filename : String) (w : List ℚ)
    (weight log_base : ℚ) :
    isAssertFail (ComputationEngine.finalizeResult res filename w weight log_base) = false := by
  rw [ComputationEngine.finalizeResult]
  split_ifs <;> rfl

/-- C2: whenever the final objective value entering the shared
finalization tail of Function/Gradient and EM M-step Function/Gradient is
negative, a value below `-1e-6` aborts with the offending parameter vector
dumped to a diagnostic file named `neg_params.` plus the example's base
name, while a value in `[-1e-6, 0)` yields an all-zero result vector with
no report; and on the success path both commands route their result — with
the computed objective value `unconditional - conditional` as its last
entry — through exactly this tail. -/
theorem claim2_negative_objective_handling
    (res : List ℚ) (filename : String) (w : List ℚ) (weight log_base : ℚ)
    (hneg : res.getLastD 0 < 0) :
    (res.getLastD 0 < -(1 / 1000000) →
      ComputationEngine.finalizeResult res filename w weight log_base =
        Except.error (CEError.negDump ("neg_params." ++ GetBaseName filename) w)) ∧
    (-(1 / 1000000) ≤ res.getLastD 0 →
      ComputationEngine.finalizeResult res filename w weight log_base =
        Except.ok (res.map (fun _ => 0), [])) ∧
    (∀ (o : Oracle) (descs : List FileDescription) (sh : SharedInfo) (idx : Nat) (g : Bool),
      (if sh.use_nonsmooth then o.viterbiScore ⟨idx, vecScale sh.w sh.log_base, true, false⟩
       else o.logPartition ⟨idx, vecScale sh.w sh.log_base, true, false⟩) ≤
          (if sh.use_nonsmooth then o.viterbiScore ⟨idx, vecScale sh.w sh.log_base, false, false⟩
           else o.logPartition ⟨idx, vecScale sh.w sh.log_base, false, false⟩) →
      ¬ ((if sh.use_nonsmooth then o.viterbiScore ⟨idx, vecScale sh.w sh.log_base, true, false⟩
          else o.logPartition ⟨idx, vecScale sh.w sh.log_base, true, false⟩) < NEG_INF / 2) →
      ∃ r, ComputationEngine.ComputeFunctionAndGradient o descs sh idx g =
          ComputationEngine.finalizeResult r (descs.getD idx default).input_filename sh.w
            (descs.getD idx default).weight sh.log_base ∧
        r.getLastD 0 =
          (if sh.use_nonsmooth then o.viterbiScore ⟨idx, vecScale sh.w sh.log_base, false, false⟩
           else o.logPartition ⟨idx, vecScale sh.w sh.log_base, false, false⟩) -
          (if sh.use_nonsmooth then o.viterbiScore ⟨idx, vecScale sh.w sh.log_base, true, false⟩
           else o.logPartition ⟨idx, vecScale sh.w sh.log_base, true, false⟩)) ∧
    (∀ (o : Oracle) (descs : List FileDescription) (sh : SharedInfo) (idx : Nat) (g : Bool),
      sh.use_nonsmooth = false →
      (if !(descs.getD idx default).sstruct.hasStruct then
        DotProduct sh.w (o.featureCountsESS ⟨idx, vecScale sh.w sh.log_base, false, true⟩)
       else o.logPartition ⟨idx, vecScale sh.w sh.log_base, true, true⟩) ≤
          o.logPartition ⟨idx, vecScale sh.w sh.log_base, false, true⟩ →
      ¬ ((if !(descs.getD idx default).sstruct.hasStruct then
          DotProduct sh.w (o.featureCountsESS ⟨idx, vecScale sh.w sh.log_base, false, true⟩)
         else o.logPartition ⟨idx, vecScale sh.w sh.log_base, true, true⟩) < NEG_INF / 2) →
      ∃ r, ComputationEngine.ComputeMStepFunctionAndGradient o descs sh idx g =
          ComputationEngine.finalizeResult r (descs.getD idx default).input_filename sh.w
            (descs.getD idx default).weight sh.log_base ∧
        r.getLastD 0 =
          o.logPartition ⟨idx, vecScale sh.w sh.log_base, false, true⟩ -
          (if !(descs.getD idx default).sstruct.hasStruct then
            DotProduct sh.w (o.featureCountsESS ⟨idx, vecScale sh.w sh.log_base, false, true⟩)
           else o.logPartition ⟨idx, vecScale sh.w sh.log_base, true, true⟩)) := by
  refine ⟨?_, ?_, ?_, ?_⟩
  · intro h
    rw [ComputationEngine.finalizeResult]
    rw [if_pos hneg, if_pos h]
  · intro h
    rw [ComputationEngine.finalizeResult]
    rw [if_pos hneg, if_neg (not_lt.mpr h)]
  · intro o descs sh idx g hle hbp
    rw [ComputationEngine.ComputeFunctionAndGradient]
    simp only [if_neg (not_lt.mpr hle), if_neg hbp]
    exact ⟨_, rfl, getLastD_append_single _ _⟩
  · intro o descs sh idx g hns hle hbp
    rw [ComputationEngine.ComputeMStepFunctionAndGradient]
    cases hhs : (descs.getD idx default).sstruct.hasStruct
    · simp only [hhs, Bool.not_false, ite_true, ite_false] at hle hbp
      simp only [hns, hhs, Bool.false_eq_true, Bool.not_false, ite_true, ite_false]
      rw [if_neg (not_lt.mpr hle), if_neg hbp]
      exact ⟨_, rfl, getLastD_append_single _ _⟩
    · simp only [hhs, Bool.not_true, Bool.false_eq_true, ite_true, ite_false] at hle hbp
      simp only [hns, hhs, Bool.false_eq_true, Bool.not_true, ite_true, ite_false]
      rw [if_neg (not_lt.mpr hle), if_neg hbp]
      exact ⟨_, rfl, getLastD_append_single _ _⟩

/-- C2 witness: a final objective value of `-1` (beyond the tolerance)
aborts with the parameter dump named from the base name of `dir/ex1`. -/
theorem claim2_witness :
    ComputationEngine.finalizeResult [(-1 : ℚ)] "dir/ex1" [0] 1 1 =
      Except.error (CEError.negDump "neg_params.ex1" [0]) := by
  have h := claim2_negative_objective_handling [(-1 : ℚ)] "dir/ex1" [0] 1 1 (by norm_num)
  rw [h.1 (by norm_num)]
  decide

/-- C4: when the conditional score falls below the `NEG_INF/2` sentinel
(and the engine contract `conditional <= unconditional` holds, so the
assertion passes), Function/Gradient and EM M-step Function/Gradient both
return a successful, all-zero result vector — the sentinel is never
propagated — together with a logged warning naming the offending
example's input file. -/
theorem claim4_bad_parse_zeroed (o : Oracle) (descs : List FileDescription)
    (sh : SharedInfo) (idx : Nat) (g : Bool)
    (hns : sh.use_nonsmooth = false)
    (hleC : (if sh.use_nonsmooth then o.viterbiScore ⟨idx, vecScale sh.w sh.log_base, true, false⟩
             else o.logPartition ⟨idx, vecScale sh.w sh.log_base, true, false⟩) ≤
        (if sh.use_nonsmooth then o.viterbiScore ⟨idx, vecScale sh.w sh.log_base, false, false⟩
         else o.logPartition ⟨idx, vecScale sh.w sh.log_base, false, false⟩))
    (hbpC : (if sh.use_nonsmooth then o.viterbiScore ⟨idx, vecScale sh.w sh.log_base, true, false⟩
             else o.logPartition ⟨idx, vecScale sh.w sh.log_base, true, false⟩) < NEG_INF / 2)
    (hleM : (if !(descs.getD idx default).sstruct.hasStruct then
              DotProduct sh.w (o.featureCountsESS ⟨idx, vecScale sh.w sh.log_base, false, true⟩)
             else o.logPartition ⟨idx, vecScale sh.w sh.log_base, true, true⟩) ≤
        o.logPartition ⟨idx, vecScale sh.w sh.log_base, false, true⟩)
    (hbpM : (if !(descs.getD idx default).sstruct.hasStruct then
              DotProduct sh.w (o.featureCountsESS ⟨idx, vecScale sh.w sh.log_base, false, true⟩)
             else o.logPartition ⟨idx, vecScale sh.w sh.log_base, true, true⟩) < NEG_INF / 2) :
    (∃ v, ComputationEngine.ComputeFunctionAndGradient o descs sh idx g =
        Except.ok (v, ["Unexpected bad parse for file: " ++
          (descs.getD idx default).input_filename]) ∧ ∀ x ∈ v, x = 0) ∧
    (∃ v, ComputationEngine.ComputeMStepFunctionAndGradient o descs sh idx g =
        Except.ok (v, ["Unexpected bad parse for file: " ++
          (descs.getD idx default).input_filename]) ∧ ∀ x ∈ v, x = 0) := by
  constructor
  · rw [ComputationEngine.ComputeFunctionAndGradient]
    rw [if_neg (not_lt.mpr hleC), if_pos hbpC]
    refine ⟨_, rfl, ?_⟩
    intro x hx
    obtain ⟨a, -, ha⟩ := List.mem_map.mp hx
    exact ha.symm
  · rw [ComputationEngine.ComputeMStepFunctionAndGradient]
    cases hhs : (descs.getD idx default).sstruct.hasStruct
    · simp only [hhs, Bool.not_false, ite_true, ite_false] at hleM hbpM
      simp only [hns, hhs, Bool.false_eq_true, Bool.not_false, ite_true, ite_false]
      rw [if_neg (not_lt.mpr hleM), if_pos hbpM]
      refine ⟨_, rfl, ?_⟩
      intro x hx
      obtain ⟨a, -, ha⟩ := List.mem_map.mp hx
      exact ha.symm
    · simp only [hhs, Bool.not_true, Bool.false_eq_true, ite_true, ite_false] at hleM hbpM
      simp only [hns, hhs, Bool.false_eq_true, Bool.not_true, ite_true, ite_false]
      rw [if_neg (not_lt.mpr hleM), if_pos hbpM]
      refine ⟨_, rfl, ?_⟩
      intro x hx
      obtain ⟨a, -, ha⟩ := List.mem_map.mp hx
      exact ha.symm

/-- C4 witness: an engine whose every log-partition value is the sentinel
on a known-structure example. -/
theorem claim4_witness :
    (∃ v, ComputationEngine.ComputeFunctionAndGradient
        { oracle0 with logPartition := fun _ => NEG_INF } descs1 sh0 0 true =
        Except.ok (v, ["Unexpected bad parse for file: dir/ex1"]) ∧ ∀ x ∈ v, x = 0) ∧
    (∃ v, ComputationEngine.ComputeMStepFunctionAndGradient
        { oracle0 with logPartition := fun _ => NEG_INF } descs1 sh0 0 true =
        Except.ok (v, ["Unexpected bad parse for file: dir/ex1"]) ∧ ∀ x ∈ v, x = 0) := by
  have h := claim4_bad_parse_zeroed { oracle0 with logPartition := fun _ => NEG_INF }
    descs1 sh0 0 true rfl (by norm_num [oracle0, sh0, NEG_INF])
    (by norm_num [oracle0, sh0, NEG_INF]) (by norm_num [oracle0, sh0, descs1, NEG_INF])
    (by norm_num [oracle0, sh0, descs1, NEG_INF])
  simpa [descs1] using h

/-- C5: in the EM M-step command with the smooth objective, on the success
path the objective value is `unconditional - conditional` (scaled by the
example weight, descaled by `log_base`) where the conditional score is the
constrained (ground-truth-clamped) log-partition value when the example's
structure is known, and the dot product of the weight vector with the ESS
feature-count expectations — computed without constraints — otherwise. -/
theorem claim5_mstep_conditional_pass (o : Oracle) (descs : List FileDescription)
    (sh : SharedInfo) (idx : Nat) (g : Bool)
    (hns : sh.use_nonsmooth = false)
    (hle : (if !(descs.getD idx default).sstruct.hasStruct then
             DotProduct sh.w (o.featureCountsESS ⟨idx, vecScale sh.w sh.log_base, false, true⟩)
            else o.logPartition ⟨idx, vecScale sh.w sh.log_base, true, true⟩) ≤
        o.logPartition ⟨idx, vecScale sh.w sh.log_base, false, true⟩)
    (hbp : ¬ ((if !(descs.getD idx default).sstruct.hasStruct then
               DotProduct sh.w (o.featureCountsESS ⟨idx, vecScale sh.w sh.log_base, false, true⟩)
              else o.logPartition ⟨idx, vecScale sh.w sh.log_base, true, true⟩) < NEG_INF / 2)) :
    okLast (ComputationEngine.ComputeMStepFunctionAndGradient o descs sh idx g) =
      some ((o.logPartition ⟨idx, vecScale sh.w sh.log_base, false, true⟩ -
          (if !(descs.getD idx default).sstruct.hasStruct then
            DotProduct sh.w (o.featureCountsESS ⟨idx, vecScale sh.w sh.log_base, false, true⟩)
           else o.logPartition ⟨idx, vecScale sh.w sh.log_base, true, true⟩)) *
        (descs.getD idx default).weight / sh.log_base) := by
  rw [ComputationEngine.ComputeMStepFunctionAndGradient]
  cases hhs : (descs.getD idx default).sstruct.hasStruct
  · simp only [hhs, Bool.not_false, ite_true, ite_false] at hle hbp
    simp only [hns, hhs, Bool.false_eq_true, Bool.not_false, ite_true, ite_false]
    rw [if_neg (not_lt.mpr hle), if_neg hbp]
    exact okLast_finalizeResult _ _ _ _ _ _ (sub_nonneg.mpr hle)
  · simp only [hhs, Bool.not_true, Bool.false_eq_true, ite_true, ite_false] at hle hbp
    simp only [hns, hhs, Bool.false_eq_true, Bool.not_true, ite_true, ite_false]
    rw [if_neg (not_lt.mpr hle), if_neg hbp]
    exact okLast_finalizeResult _ _ _ _ _ _ (sub_nonneg.mpr hle)

/-- C5 witness: concrete evaluation on a known-structure example. -/
theorem claim5_witness :
    okLast (ComputationEngine.ComputeMStepFunctionAndGradient oracle0 descs1 sh0 0 true) =
      some 0 := by
  have h := claim5_mstep_conditional_pass oracle0 descs1 sh0 0 true rfl
    (by norm_num [oracle0, sh0, descs1, NEG_INF])
    (by norm_num [oracle0, sh0, descs1, NEG_INF])
  rw [h]
  norm_num [oracle0, sh0, descs1]

/-- C6: the Hessian-vector product command fails fatally with a
descriptive message when Viterbi parsing (the non-smooth objective) is
selected; otherwise it returns the central finite difference
`(g(w + EPSILON v) - g(w - EPSILON v)) / (2 EPSILON)` with
`EPSILON = 1e-8`, where `g` is the Function/Gradient result. -/
theorem claim6_hessian_vector_product (o : Oracle) (opts : Options)
    (descs : List FileDescription) (sh : SharedInfo) (idx : Nat) :
    (opts.viterbi_parsing = true →
      ComputationEngine.ComputeHessianVectorProduct o opts descs sh idx =
        Except.error (CEError.fatalError
          "Should not use Hessian-vector products with Viterbi parsing.")) ∧
    (opts.viterbi_parsing = false →
      ∀ g1 l1 g2 l2,
        ComputationEngine.ComputeFunctionAndGradient o descs
          { sh with w := List.zipWith (fun wi vi => wi + 1 / 100000000 * vi) sh.w sh.v }
          idx true = Except.ok (g1, l1) →
        ComputationEngine.ComputeFunctionAndGradient o descs
          { sh with w := List.zipWith (fun wi vi => wi - 1 / 100000000 * vi) sh.w sh.v }
          idx true = Except.ok (g2, l2) →
        ComputationEngine.ComputeHessianVectorProduct o opts descs sh idx =
          Except.ok (List.zipWith (fun a b => (a - b) / (2 * (1 / 100000000))) g1 g2,
            l1 ++ l2)) := by
  constructor
  · intro hvp
    rw [ComputationEngine.ComputeHessianVectorProduct, hvp]
    rfl
  · intro hvp g1 l1 g2 l2 h1 h2
    rw [ComputationEngine.ComputeHessianVectorProduct, hvp]
    simp only [Bool.false_eq_true, if_false, h1, h2]
    rfl

/-- C6 witness: concrete central difference on a trivial engine. -/
theorem claim6_witness :
    ComputationEngine.ComputeHessianVectorProduct oracle0 ⟨false, 0⟩ descs0 sh0 0 =
      Except.ok ([0, 0], []) := by
  have hp : ComputationEngine.ComputeFunctionAndGradient oracle0 descs0
      { sh0 with w := List.zipWith (fun wi vi => wi + 1 / 100000000 * vi) sh0.w sh0.v }
      0 true = Except.ok ([0, 0], []) := by
    simp [ComputationEngine.ComputeFunctionAndGradient, ComputationEngine.finalizeResult,
      oracle0, descs0, sh0, vecScale, vecSub, NEG_INF]
  have hm : ComputationEngine.ComputeFunctionAndGradient oracle0 descs0
      { sh0 with w := List.zipWith (fun wi vi => wi - 1 / 100000000 * vi) sh0.w sh0.v }
      0 true = Except.ok ([0, 0], []) := by
    simp [ComputationEngine.ComputeFunctionAndGradient, ComputationEngine.finalizeResult,
      oracle0, descs0, sh0, vecScale, vecSub, NEG_INF]
  have h := (claim6_hessian_vector_product oracle0 ⟨false, 0⟩ descs0 sh0 0).2 rfl
    [0, 0] [] [0, 0] [] hp hm
  rw [h]
  norm_num

/-- C3 counterexample: in the unknown-structure (ESS) branch the engine
returns ESS statistics `(10, 7, 5)` and an example count `N = 3`; with
`log scale = 1` the command returns `Σlog d = 7 - 5 * 1 = 2`, not the
claimed `7 - N * log scale = 4`: the multiplier is the third ESS
statistic, not the returned example count. -/
theorem claim3_counterexample :
    (ComputationEngine.ComputeGammaMLEFunctionAndGradient oracleC3 pm0 fnsC3 descsE
        sh0 0 true).1 = Except.ok [10, 2, 3, -16] ∧
    (2 : ℚ) ≠ 7 - 3 * fnsC3.log sh0.evidence_data_scale := by
  constructor
  · simp [ComputationEngine.ComputeGammaMLEFunctionAndGradient, oracleC3, oracle0, fnsC3,
      descsE, sh0, pm0, vecScale]
    norm_num
  · norm_num [fnsC3, sh0]

/-- C3 (amended): for every example with evidence on the requested data
source (smooth mode, gradient requested), the returned statistics are
rebased by dividing the evidence sum by the scale in both branches; the
sum of logarithms is rebased by subtracting `N * log(scale)` — `N` the
returned example count — in the known-structure branch, but by subtracting
`ssq * log(scale)` — `ssq` the third expected sufficient statistic of
`ComputeGammaMLEESS` — in the unknown-structure (ESS) branch. -/
theorem claim3_gamma_scale_rebasing (o : Oracle) (pm : ParameterManager)
    (fns : TransFns) (descs : List FileDescription) (sh : SharedInfo) (idx : Nat)
    (hev : (descs.getD idx default).sstruct.hasEvidence sh.which_data = true)
    (hns : sh.use_nonsmooth = false) :
    ((descs.getD idx default).sstruct.hasStruct = true →
      ∃ ll, (ComputationEngine.ComputeGammaMLEFunctionAndGradient o pm fns descs sh idx
          true).1 =
        Except.ok (vecScale
          [(o.gammaMLESS ⟨idx, vecScale sh.w sh.log_base, true, true⟩
              [(sh.id_base : Int), (sh.id_pairing : Int), if sh.areZeros then 1 else 0]
              (!sh.areZeros) (!sh.areZeros) sh.which_data).1 / sh.evidence_data_scale,
           (o.gammaMLESS ⟨idx, vecScale sh.w sh.log_base, true, true⟩
              [(sh.id_base : Int), (sh.id_pairing : Int), if sh.areZeros then 1 else 0]
              (!sh.areZeros) (!sh.areZeros) sh.which_data).2.1 -
             o.numExamplesSeqPairing ⟨idx, vecScale sh.w sh.log_base, true, true⟩
               [(sh.id_base : Int), (sh.id_pairing : Int), if sh.areZeros then 1 else 0]
               false sh.which_data * fns.log sh.evidence_data_scale,
           o.numExamplesSeqPairing ⟨idx, vecScale sh.w sh.log_base, true, true⟩
             [(sh.id_base : Int), (sh.id_pairing : Int), if sh.areZeros then 1 else 0]
             false sh.which_data,
           ll] (descs.getD idx default).weight)) ∧
    ((descs.getD idx default).sstruct.hasStruct = false →
      ∃ ll, (ComputationEngine.ComputeGammaMLEFunctionAndGradient o pm fns descs sh idx
          true).1 =
        Except.ok (vecScale
          [(o.gammaMLEESS ⟨idx, vecScale sh.w sh.log_base, true, true⟩
              [(sh.id_base : Int), (sh.id_pairing : Int), if sh.areZeros then 1 else 0]
              (!sh.areZeros) (!sh.areZeros) sh.which_data).1 / sh.evidence_data_scale,
           (o.gammaMLEESS ⟨idx, vecScale sh.w sh.log_base, true, true⟩
              [(sh.id_base : Int), (sh.id_pairing : Int), if sh.areZeros then 1 else 0]
              (!sh.areZeros) (!sh.areZeros) sh.which_data).2.1 -
             (o.gammaMLEESS ⟨idx, vecScale sh.w sh.log_base, true, true⟩
               [(sh.id_base : Int), (sh.id_pairing : Int), if sh.areZeros then 1 else 0]
               (!sh.areZeros) (!sh.areZeros) sh.which_data).2.2 *
               fns.log sh.evidence_data_scale,
           o.numExamplesSeq ⟨idx, vecScale sh.w sh.log_base, true, true⟩
             [(sh.id_base : Int), (sh.id_pairing : Int), if sh.areZeros then 1 else 0]
             false sh.which_data,
           ll] (descs.getD idx default).weight)) := by
  constructor
  · intro hhs
    simp only [ComputationEngine.ComputeGammaMLEFunctionAndGradient, hev, hhs, hns,
      Bool.not_true, Bool.not_false, Bool.false_eq_true, ite_true, ite_false,
      List.cons_append, List.nil_append]
    exact ⟨_, rfl⟩
  · intro hhs
    simp only [ComputationEngine.ComputeGammaMLEFunctionAndGradient, hev, hhs, hns,
      Bool.not_true, Bool.not_false, Bool.false_eq_true, ite_true, ite_false,
      List.cons_append, List.nil_append]
    exact ⟨_, rfl⟩

/-- C3 witness: the amended statement evaluated on the counterexample's
engine (unknown-structure branch). -/
theorem claim3_witness :
    ∃ ll, (ComputationEngine.ComputeGammaMLEFunctionAndGradient oracleC3 pm0 fnsC3 descsE
        sh0 0 true).1 = Except.ok [10, 2, 3, ll] := by
  obtain ⟨ll, hl⟩ :=
    (claim3_gamma_scale_rebasing oracleC3 pm0 fnsC3 descsE sh0 0 rfl rfl).2 rfl
  refine ⟨ll, ?_⟩
  rw [hl]
  norm_num [oracleC3, oracle0, fnsC3, descsE, sh0, vecScale]

/-- For an example without known structure, the structured-evidence cell
loop leaves the accumulated function value untouched (the Gamma evidence
log-likelihood only contributes when the structure is known). -/
theorem seEvidenceLoop_fst_of_no_struct (o : Oracle) (pm : ParameterManager)
    (fns : TransFns) (sstruct : SStruct) (hhs : sstruct.hasStruct = false)
    (w : List ℚ) (cfg : EngineConfig) (g : Bool) (n : Nat) (init : ℚ × List ℚ) :
    (ComputationEngine.seEvidenceLoop o pm fns sstruct w cfg g n init).1 = init.1 := by
  rw [ComputationEngine.seEvidenceLoop]
  generalize ComputationEngine.seCells n = cells
  induction cells generalizing init with
  | nil => rfl
  | cons c cs ih =>
      rw [List.foldl_cons, ih]
      simp [ComputationEngine.seEvidenceCell, hhs]

/-- C1 counterexample: on a structure-unknown example under the
structured-evidence command, an engine whose conditional (ESS) score
exceeds the unconditional score does not trigger the assertion — the
command succeeds — refuting "an assertion fails otherwise" for every
score-comparing command. -/
theorem claim1_counterexample :
    isAssertFail (ComputationEngine.ComputeFunctionAndGradientSE oracleC1 pm0 fns0 opts0
        descs0 sh0 0 false) = false ∧
    oracleC1.logPartition ⟨0, vecScale sh0.w sh0.log_base, false, true⟩ <
      oracleC1.logPartitionESS ⟨0, vecScale sh0.w sh0.log_base, false, true⟩ := by
  constructor
  · simp [ComputationEngine.ComputeFunctionAndGradientSE, ComputationEngine.seEvidenceLoop,
      ComputationEngine.seCells, isAssertFail, oracleC1, oracle0, descs0, sh0, opts0,
      vecScale, vecSub, NEG_INF]
    norm_num
  · norm_num [oracleC1, oracle0, sh0, vecScale]

/-- C1 (amended): in Function/Gradient and EM M-step Function/Gradient the
assertion fails exactly when the conditional score exceeds the
unconditional score, and on the success path the objective value is
`unconditional - conditional` (scaled by the example weight and descaled
by `log_base`); in the structured-evidence command the assertion applies
only to examples with known structure — for a structure-unknown example a
conditional (ESS) score exceeding the unconditional score is never an
assertion failure — and the objective value adds the Gamma evidence
log-likelihood term of the cell loop (zero when the structure is unknown,
with the whole result further scaled by `hyperparam_data`) to
`unconditional - conditional`. -/
theorem claim1_conditional_score_invariant :
    (∀ (o : Oracle) (descs : List FileDescription) (sh : SharedInfo) (idx : Nat) (g : Bool),
      isAssertFail (ComputationEngine.ComputeFunctionAndGradient o descs sh idx g) = true ↔
        (if sh.use_nonsmooth then o.viterbiScore ⟨idx, vecScale sh.w sh.log_base, false, false⟩
         else o.logPartition ⟨idx, vecScale sh.w sh.log_base, false, false⟩) <
        (if sh.use_nonsmooth then o.viterbiScore ⟨idx, vecScale sh.w sh.log_base, true, false⟩
         else o.logPartition ⟨idx, vecScale sh.w sh.log_base, true, false⟩)) ∧
    (∀ (o : Oracle) (descs : List FileDescription) (sh : SharedInfo) (idx : Nat) (g : Bool),
      (if sh.use_nonsmooth then o.viterbiScore ⟨idx, vecScale sh.w sh.log_base, true, false⟩
       else o.logPartition ⟨idx, vecScale sh.w sh.log_base, true, false⟩) ≤
          (if sh.use_nonsmooth then o.viterbiScore ⟨idx, vecScale sh.w sh.log_base, false, false⟩
           else o.logPartition ⟨idx, vecScale sh.w sh.log_base, false, false⟩) →
      ¬ ((if sh.use_nonsmooth then o.viterbiScore ⟨idx, vecScale sh.w sh.log_base, true, false⟩
          else o.logPartition ⟨idx, vecScale sh.w sh.log_base, true, false⟩) < NEG_INF / 2) →
      okLast (ComputationEngine.ComputeFunctionAndGradient o descs sh idx g) =
        some (((if sh.use_nonsmooth then
                  o.viterbiScore ⟨idx, vecScale sh.w sh.log_base, false, false⟩
                else o.logPartition ⟨idx, vecScale sh.w sh.log_base, false, false⟩) -
               (if sh.use_nonsmooth then
                  o.viterbiScore ⟨idx, vecScale sh.w sh.log_base, true, false⟩
                else o.logPartition ⟨idx, vecScale sh.w sh.log_base, true, false⟩)) *
          (descs.getD idx default).weight / sh.log_base)) ∧
    (∀ (o : Oracle) (descs : List FileDescription) (sh : SharedInfo) (idx : Nat) (g : Bool),
      isAssertFail (ComputationEngine.ComputeMStepFunctionAndGradient o descs sh idx g) =
          true ↔
        (sh.use_nonsmooth = false ∧
          o.logPartition ⟨idx, vecScale sh.w sh.log_base, false, true⟩ <
            (if !(descs.getD idx default).sstruct.hasStruct then
              DotProduct sh.w
                (o.featureCountsESS ⟨idx, vecScale sh.w sh.log_base, false, true⟩)
             else o.logPartition ⟨idx, vecScale sh.w sh.log_base, true, true⟩))) ∧
    (∀ (o : Oracle) (descs : List FileDescription) (sh : SharedInfo) (idx : Nat) (g : Bool),
      sh.use_nonsmooth = false →
      (if !(descs.getD idx default).sstruct.hasStruct then
        DotProduct sh.w (o.featureCountsESS ⟨idx, vecScale sh.w sh.log_base, false, true⟩)
       else o.logPartition ⟨idx, vecScale sh.w sh.log_base, true, true⟩) ≤
          o.logPartition ⟨idx, vecScale sh.w sh.log_base, false, true⟩ →
      ¬ ((if !(descs.getD idx default).sstruct.hasStruct then
          DotProduct sh.w (o.featureCountsESS ⟨idx, vecScale sh.w sh.log_base, false, true⟩)
         else o.logPartition ⟨idx, vecScale sh.w sh.log_base, true, true⟩) < NEG_INF / 2) →
      okLast (ComputationEngine.ComputeMStepFunctionAndGradient o descs sh idx g) =
        some ((o.logPartition ⟨idx, vecScale sh.w sh.log_base, false, true⟩ -
            (if !(descs.getD idx default).sstruct.hasStruct then
              DotProduct sh.w
                (o.featureCountsESS ⟨idx, vecScale sh.w sh.log_base, false, true⟩)
             else o.logPartition ⟨idx, vecScale sh.w sh.log_base, true, true⟩)) *
          (descs.getD idx default).weight / sh.log_base)) ∧
    (∀ (o : Oracle) (pm : ParameterManager) (fns : TransFns) (opts : Options)
        (descs : List FileDescription) (sh : SharedInfo) (idx : Nat) (g : Bool),
      isAssertFail (ComputationEngine.ComputeFunctionAndGradientSE o pm fns opts descs sh
          idx g) = true ↔
        (sh.use_nonsmooth = false ∧
          (descs.getD idx default).sstruct.hasStruct = true ∧
          o.logPartition ⟨idx, vecScale sh.w sh.log_base, false, true⟩ <
            o.logPartition ⟨idx, vecScale sh.w sh.log_base, true, true⟩)) ∧
    (∀ (o : Oracle) (pm : ParameterManager) (fns : TransFns) (opts : Options)
        (descs : List FileDescription) (sh : SharedInfo) (idx : Nat) (g : Bool),
      (descs.getD idx default).sstruct.hasStruct = true →
      sh.use_nonsmooth = false →
      o.logPartition ⟨idx, vecScale sh.w sh.log_base, true, true⟩ ≤
        o.logPartition ⟨idx, vecScale sh.w sh.log_base, false, true⟩ →
      ¬ (o.logPartition ⟨idx, vecScale sh.w sh.log_base, true, true⟩ < NEG_INF / 2) →
      okLast (ComputationEngine.ComputeFunctionAndGradientSE o pm fns opts descs sh idx g) =
        some (((ComputationEngine.seEvidenceLoop o pm fns (descs.getD idx default).sstruct
              sh.w ⟨idx, vecScale sh.w sh.log_base, true, true⟩ g opts.num_data_sources
              (0, if g then
                vecSub (o.featureCounts ⟨idx, vecScale sh.w sh.log_base, false, true⟩)
                  (o.featureCounts ⟨idx, vecScale sh.w sh.log_base, true, true⟩)
               else [])).1 +
            (o.logPartition ⟨idx, vecScale sh.w sh.log_base, false, true⟩ -
             o.logPartition ⟨idx, vecScale sh.w sh.log_base, true, true⟩)) *
          (descs.getD idx default).weight / sh.log_base)) ∧
    (∀ (o : Oracle) (pm : ParameterManager) (fns : TransFns) (opts : Options)
        (descs : List FileDescription) (sh : SharedInfo) (idx : Nat) (g : Bool),
      (descs.getD idx default).sstruct.hasStruct = false →
      sh.use_nonsmooth = false →
      o.logPartitionESS ⟨idx, vecScale sh.w sh.log_base, false, true⟩ ≤
        o.logPartition ⟨idx, vecScale sh.w sh.log_base, false, true⟩ →
      ¬ (o.logPartitionESS ⟨idx, vecScale sh.w sh.log_base, false, true⟩ < NEG_INF / 2) →
      okLast (ComputationEngine.ComputeFunctionAndGradientSE o pm fns opts descs sh idx g) =
        some ((o.logPartition ⟨idx, vecScale sh.w sh.log_base, false, true⟩ -
             o.logPartitionESS ⟨idx, vecScale sh.w sh.log_base, false, true⟩) *
          (descs.getD idx default).weight / sh.log_base * sh.hyperparam_data)) := by
  refine ⟨?_, ?_, ?_, ?_, ?_, ?_, ?_⟩
  · intro o descs sh idx g
    rw [ComputationEngine.ComputeFunctionAndGradient]
    cases hns : sh.use_nonsmooth <;> cases hg : g <;>
      simp only [hns, hg, Bool.false_eq_true, ite_true, ite_false] <;>
      split_ifs with h1 h2 <;>
      first
        | (rw [isAssertFail_finalizeResult]; simp [h1])
        | simp [isAssertFail, h1]
  · intro o descs sh idx g hle hbp
    rw [ComputationEngine.ComputeFunctionAndGradient]
    rw [if_neg (not_lt.mpr hle), if_neg hbp]
    exact okLast_finalizeResult _ _ _ _ _ _ (sub_nonneg.mpr hle)
  · intro o descs sh idx g
    rw [ComputationEngine.ComputeMStepFunctionAndGradient]
    cases hns : sh.use_nonsmooth
    · cases hhs : (descs.getD idx default).sstruct.hasStruct <;> cases hg : g <;>
        simp only [hns, hhs, hg, Bool.false_eq_true, Bool.not_false, Bool.not_true,
          ite_true, ite_false] <;>
        split_ifs with h1 h2 <;>
        first
          | (rw [isAssertFail_finalizeResult]; simp [hns, hhs, h1])
          | simp [isAssertFail, hns, hhs, h1]
    · simp [isAssertFail, hns]
  · intro o descs sh idx g hns hle hbp
    rw [ComputationEngine.ComputeMStepFunctionAndGradient]
    cases hhs : (descs.getD idx default).sstruct.hasStruct
    · simp only [hhs, Bool.not_false, ite_true, ite_false] at hle hbp
      simp only [hns, hhs, Bool.false_eq_true, Bool.not_false, ite_true, ite_false]
      rw [if_neg (not_lt.mpr hle), if_neg hbp]
      exact okLast_finalizeResult _ _ _ _ _ _ (sub_nonneg.mpr hle)
    · simp only [hhs, Bool.not_true, Bool.false_eq_true, ite_true, ite_false] at hle hbp
      simp only [hns, hhs, Bool.false_eq_true, Bool.not_true, ite_true, ite_false]
      rw [if_neg (not_lt.mpr hle), if_neg hbp]
      exact okLast_finalizeResult _ _ _ _ _ _ (sub_nonneg.mpr hle)
  · intro o pm fns opts descs sh idx g
    rw [ComputationEngine.ComputeFunctionAndGradientSE]
    cases hns : sh.use_nonsmooth
    · cases hhs : (descs.getD idx default).sstruct.hasStruct <;> cases hg : g <;>
        simp only [hns, hhs, hg, Bool.false_eq_true, Bool.not_false, Bool.not_true,
          ite_true, ite_false, false_and, true_and] <;>
        split_ifs with h1 h2 <;>
        simp [isAssertFail, hns, hhs, h1]
    · simp [isAssertFail, hns]
  · intro o pm fns opts descs sh idx g hhs hns hle hbp
    rw [ComputationEngine.ComputeFunctionAndGradientSE]
    simp only [hns, hhs, Bool.false_eq_true, Bool.not_true, ite_true, ite_false, true_and]
    rw [if_neg (not_lt.mpr hle), if_neg hbp, if_neg (not_lt.mpr (sub_nonneg.mpr hle))]
    simp only [okLast, vecScale_append_single, getLastD_append_single]
    rw [getLast?_append_single]
    cases g <;> simp
  · intro o pm fns opts descs sh idx g hhs hns hle hbp
    rw [ComputationEngine.ComputeFunctionAndGradientSE]
    simp only [hns, hhs, Bool.false_eq_true, Bool.not_false, ite_true, ite_false, false_and]
    rw [if_neg hbp, if_neg (not_lt.mpr (sub_nonneg.mpr hle))]
    rw [seEvidenceLoop_fst_of_no_struct o pm fns _ hhs]
    simp only [okLast, vecScale_append_single, getLastD_append_single, zero_add]
    rw [getLast?_append_single]

/-- C1 witness: concrete instances of the amended statement — a
contract-violating engine trips the Function/Gradient assertion, and the
three commands produce the stated objective values on trivial engines. -/
theorem claim1_witness :
    isAssertFail (ComputationEngine.ComputeFunctionAndGradient oracleAssert descs0 sh0 0
      true) = true ∧
    okLast (ComputationEngine.ComputeFunctionAndGradient oracle0 descs0 sh0 0 true) =
      some 0 ∧
    okLast (ComputationEngine.ComputeFunctionAndGradientSE oracle0 pm0 fns0 opts0 descs1
      sh0 0 false) = some 0 ∧
    okLast (ComputationEngine.ComputeFunctionAndGradientSE oracle0 pm0 fns0 opts0 descs0
      sh0 0 false) = some 0 := by
  have h := claim1_conditional_score_invariant
  refine ⟨?_, ?_, ?_, ?_⟩
  · exact (h.1 oracleAssert descs0 sh0 0 true).mpr
      (by norm_num [oracleAssert, oracle0, sh0, vecScale])
  · have h2 := h.2.1 oracle0 descs0 sh0 0 true (by norm_num [oracle0, sh0])
      (by norm_num [oracle0, sh0, NEG_INF])
    rw [h2]
    norm_num [oracle0, descs0, sh0]
  · have h6 := h.2.2.2.2.2.1 oracle0 pm0 fns0 opts0 descs1 sh0 0 false rfl rfl
      (by norm_num [oracle0, sh0]) (by norm_num [oracle0, sh0, NEG_INF])
    rw [h6]
    norm_num [ComputationEngine.seEvidenceLoop, ComputationEngine.seCells, oracle0,
      descs1, sh0, opts0]
  · have h7 := h.2.2.2.2.2.2 oracle0 pm0 fns0 opts0 descs0 sh0 0 false rfl rfl
      (by norm_num [oracle0, sh0]) (by norm_num [oracle0, sh0, NEG_INF])
    rw [h7]
    norm_num [oracle0, descs0, sh0]
